import Mathlib

/-!
Verification of the `FatVolume` integration layer of the SdFat library
(`src/FatLib/FatVolume.h`), the facade binding a FAT partition engine to a
path-string API with a per-volume working-directory cursor and a process-wide
current-working-volume register.

The facade's own bodies are translated line by line from `FatVolume.h`.  The
external collaborators it delegates to (the `FatFile` directory-entry handle
abstraction and the `FatPartition` block engine) are not part of this source
snapshot, so they are modelled from the specification: a filesystem is a
finite tree of named nodes, a handle is an open/closed flag plus the absolute
path of its entry and an enumeration position, and each collaborator
operation (`open`, `openRoot`, `openNext`, `mkdir`, `rename`, `remove`,
`rmdir`, `rmRfStar`, `truncate`, `seekSet`, `curPosition`, `isDir`, `isFile`,
`close`) is given the behaviour the specification assigns it.
-/

/-- Modelled from the spec: a filesystem entry is either a regular file
(carrying its byte size) or a directory holding an ordered list of named
children. -/
inductive Node where
  | file : Nat → Node
  | dir : List (String × Node) → Node

/-- Modelled from the spec: a Directory Entry Handle is an open/closed flag,
the absolute path of the entry it refers to, and a stream position used for
directory enumeration (`curPosition`). -/
structure Handle where
  isOpen : Bool
  hpath : List String
  pos : Nat
deriving Repr, DecidableEq

/-- A handle in the `Closed` state, as freshly constructed locals start. -/
def Handle.closed : Handle := { isOpen := false, hpath := [], pos := 0 }

/-- Close a handle (`FatFile::close`); idempotent. -/
def hClose (h : Handle) : Handle := { h with isOpen := false }

/-- Modelled from the spec: a block device exposes a list of partitions, each
carrying the filesystem tree the Block Partition Engine would mount. -/
structure BlockDevice where
  parts : List Node

/-- The state visible to a `FatVolume`: its identity, whether the partition
engine initialised (`FatPartition::init` succeeded), the mounted tree, the
working-directory cursor `m_vwd`, and the process-wide register `m_cwv`
(modelled as the id of the volume holding it, `none` when unset). -/
structure Sys where
  selfId : Nat
  inited : Bool
  root : Node
  vwd : Handle
  cwv : Option Nat

/-- Find the first child with the given name in a directory's entry list. -/
def findIn : List (String × Node) → String → Option Node
  | [], _ => none
  | (name, n) :: rest, c => if name = c then some n else findIn rest c

/-- Replace the first child with the given name by a new node. -/
def replaceIn : List (String × Node) → String → Node → List (String × Node)
  | [], _, _ => []
  | (name, n) :: rest, c, m =>
      if name = c then (name, m) :: rest else (name, n) :: replaceIn rest c m

/-- Remove every child with the given name. -/
def removeIn (es : List (String × Node)) (c : String) : List (String × Node) :=
  es.filter fun e => e.1 ≠ c

/-- Resolve a path component-by-component from a node. -/
def lookup : Node → List String → Option Node
  | n, [] => some n
  | Node.file _, _ :: _ => none
  | Node.dir es, c :: cs =>
      match findIn es c with
      | some n => lookup n cs
      | none => none

/-- Resolve a path from a base directory: the base path must name a
directory, and the relative path is then resolved inside it. -/
def resolveFrom (root : Node) (base : List String) (p : List String) : Option Node :=
  match lookup root base with
  | some (Node.dir es) => lookup (Node.dir es) p
  | _ => none

/-- Edit the tree at a path: `some n` replaces (or appends) the entry, `none`
deletes it.  Fails when an intermediate component is missing or is a file,
or when asked to delete the root. -/
def editAt : Node → List String → Option Node → Option Node
  | _, [], some m => some m
  | _, [], none => none
  | Node.dir es, [c], some m =>
      some (Node.dir (if (findIn es c).isSome then replaceIn es c m else es ++ [(c, m)]))
  | Node.dir es, [c], none => some (Node.dir (removeIn es c))
  | Node.dir es, c :: cs, act =>
      match findIn es c with
      | some sub => (editAt sub cs act).map fun sub2 => Node.dir (replaceIn es c sub2)
      | none => none
  | Node.file _, _ :: _, _ => none

/-- Modelled from the spec: `FatFile::mkdir` path walk.  The leaf must not
already exist; missing ancestors are created only when `pFlag` is set. -/
def mkdirPath : Node → List String → Bool → Option Node
  | _, [], _ => none
  | Node.dir es, [c], _ =>
      match findIn es c with
      | some _ => none
      | none => some (Node.dir (es ++ [(c, Node.dir [])]))
  | Node.dir es, c :: cs, pFlag =>
      match findIn es c with
      | some sub => (mkdirPath sub cs pFlag).map fun sub2 => Node.dir (replaceIn es c sub2)
      | none =>
          if pFlag then
            (mkdirPath (Node.dir []) cs pFlag).map fun sub2 => Node.dir (es ++ [(c, sub2)])
          else none
  | Node.file _, _ :: _, _ => none

/-- Position of a directory stream after scanning for a named entry: one past
the index when found, the entry count when not. -/
def searchPos : List (String × Node) → String → Nat
  | [], _ => 0
  | (name, _) :: rest, c => if name = c then 1 else 1 + searchPos rest c

/-- Modelled from the spec: `Entry.open(startDir, path, mode)` — open a
short-lived handle by resolving `p` from the base directory handle.  Fails
when the base is closed or not a directory, when resolution fails, or when a
directory is opened with write intent.  Scanning the base directory for the
first component moves the base's enumeration position, which is why callers
of working-directory-relative operations may observe a cursor position
change.  Returns (success, base handle after the scan, opened handle). -/
def fatOpen (root : Node) (base : Handle) (p : List String) (write : Bool) :
    Bool × Handle × Handle :=
  if base.isOpen then
    match lookup root base.hpath with
    | some (Node.dir es) =>
        let base' :=
          match p with
          | [] => base
          | c :: _ => { base with pos := searchPos es c }
        match lookup (Node.dir es) p with
        | some n =>
            if write && (match n with | Node.dir _ => true | _ => false) then
              (false, base', Handle.closed)
            else
              (true, base', { isOpen := true, hpath := base.hpath ++ p, pos := 0 })
        | none => (false, base', Handle.closed)
    | _ => (false, base, Handle.closed)
  else (false, base, Handle.closed)

/-- Modelled from the spec: `Entry.open(volume, path, mode)` — root-relative
resolution, starting at the volume itself (conceptually its root).  Fails
when the partition is not initialised; never touches the working-directory
cursor. -/
def fatOpenVol (s : Sys) (p : List String) (write : Bool) : Bool × Handle :=
  if s.inited then
    let r := fatOpen s.root { isOpen := true, hpath := [], pos := 0 } p write
    (r.1, r.2.2)
  else (false, Handle.closed)

/-- Modelled from the spec: `FatFile::openRoot(volume)` — binds the handle to
the volume's root directory; fails when the partition is not initialised, in
which case the handle is left as it was. -/
def openRoot (s : Sys) (h : Handle) : Bool × Handle :=
  if s.inited then (true, { isOpen := true, hpath := [], pos := 0 }) else (false, h)

/-- Modelled from the spec: `FatFile::seekSet(pos)` — restore a stream
position; valid positions run up to the entry count (for directories) or the
byte size (for files). -/
def fatSeekSet (root : Node) (h : Handle) (pos : Nat) : Bool × Handle :=
  if h.isOpen then
    match lookup root h.hpath with
    | some (Node.dir es) =>
        if pos ≤ es.length then (true, { h with pos := pos }) else (false, h)
    | some (Node.file sz) =>
        if pos ≤ sz then (true, { h with pos := pos }) else (false, h)
    | none => (false, h)
  else (false, h)

/-- Modelled from the spec: `FatFile::openNext(dir, mode)` — open the entry
at the directory's current position and advance it; running past the end is
signalled by an invalid (closed) returned handle with the position left
where it was.  Returns (success, advanced base, opened handle). -/
def fatOpenNext (root : Node) (base : Handle) : Bool × Handle × Handle :=
  if base.isOpen then
    match lookup root base.hpath with
    | some (Node.dir es) =>
        match es.get? base.pos with
        | some e =>
            (true, { base with pos := base.pos + 1 },
             { isOpen := true, hpath := base.hpath ++ [e.1], pos := 0 })
        | none => (false, base, Handle.closed)
    | _ => (false, base, Handle.closed)
  else (false, base, Handle.closed)

/-- Modelled from the spec: `FatFile::remove` — unlink the regular file the
open handle refers to; the handle is closed on success. -/
def fatRemove (root : Node) (h : Handle) : Bool × Node × Handle :=
  if h.isOpen then
    match h.hpath, lookup root h.hpath with
    | _ :: _, some (Node.file _) =>
        match editAt root h.hpath none with
        | some t => (true, t, hClose h)
        | none => (false, root, h)
    | _, _ => (false, root, h)
  else (false, root, h)

/-- Modelled from the spec: `FatFile::rmdir` — unlink the directory the open
handle refers to, only when it is empty and not the root; the handle is
closed on success. -/
def fatRmdirPrim (root : Node) (h : Handle) : Bool × Node × Handle :=
  if h.isOpen then
    match h.hpath, lookup root h.hpath with
    | _ :: _, some (Node.dir []) =>
        match editAt root h.hpath none with
        | some t => (true, t, hClose h)
        | none => (false, root, h)
    | _, _ => (false, root, h)
  else (false, root, h)

/-- Modelled from the spec: `FatFile::rmRfStar` — recursively delete every
entry under the open directory handle, ignoring read-only protection, then
remove the directory itself when it is not the root (closing the handle). -/
def fatRmRfStar (root : Node) (h : Handle) : Bool × Node × Handle :=
  if h.isOpen then
    match h.hpath, lookup root h.hpath with
    | [], some (Node.dir _) => (true, Node.dir [], h)
    | _ :: _, some (Node.dir _) =>
        match editAt root h.hpath none with
        | some t => (true, t, hClose h)
        | none => (false, root, h)
    | _, _ => (false, root, h)
  else (false, root, h)

/-- Modelled from the spec: `FatFile::truncate(length)` — shrink the open
regular file to `len` bytes; fails when `len` exceeds the current size. -/
def fatTruncate (root : Node) (h : Handle) (len : Nat) : Bool × Node × Handle :=
  if h.isOpen then
    match lookup root h.hpath with
    | some (Node.file sz) =>
        if len ≤ sz then
          match editAt root h.hpath (some (Node.file len)) with
          | some t => (true, t, h)
          | none => (false, root, h)
        else (false, root, h)
    | _ => (false, root, h)
  else (false, root, h)

/-- Modelled from the spec: `FatFile::mkdir(startDir, path, createParents)` —
create a directory at `p` resolved from the base directory handle; on
success the created handle is open at the new directory. -/
def fatMkdir (root : Node) (base : Handle) (p : List String) (pFlag : Bool) :
    Bool × Node × Handle :=
  if base.isOpen then
    match lookup root base.hpath with
    | some (Node.dir _) =>
        match mkdirPath root (base.hpath ++ p) pFlag with
        | some t => (true, t, { isOpen := true, hpath := base.hpath ++ p, pos := 0 })
        | none => (false, root, Handle.closed)
    | _ => (false, root, Handle.closed)
  else (false, root, Handle.closed)

/-- Modelled from the spec: `FatFile::rename(startDir, newPath)` — move the
open handle's entry to `newP` resolved from the base directory; fails when
the destination already exists or its parent chain is invalid. -/
def fatRename (root : Node) (f : Handle) (base : Handle) (newP : List String) :
    Bool × Node × Handle :=
  if f.isOpen && base.isOpen then
    match lookup root base.hpath, lookup root f.hpath with
    | some (Node.dir _), some n =>
        if base.hpath ++ newP = [] || (lookup root (base.hpath ++ newP)).isSome then
          (false, root, f)
        else
          match editAt root f.hpath none with
          | some t1 =>
              match editAt t1 (base.hpath ++ newP) (some n) with
              | some t2 => (true, t2, { f with hpath := base.hpath ++ newP })
              | none => (false, root, f)
          | none => (false, root, f)
    | _, _ => (false, root, f)
  else (false, root, f)

/-- Modelled from the spec: `FatFile::isDir` — the open handle refers to a
directory. -/
def hIsDir (root : Node) (h : Handle) : Bool :=
  h.isOpen && (match lookup root h.hpath with | some (Node.dir _) => true | _ => false)

/-- Modelled from the spec: `FatFile::isFile` — the open handle refers to a
regular file. -/
def hIsFile (root : Node) (h : Handle) : Bool :=
  h.isOpen && (match lookup root h.hpath with | some (Node.file _) => true | _ => false)

/-- Modelled from the spec: `FatPartition::init(dev, part)` — initialise the
partition engine against partition `part` of the device; on success the
volume's tree becomes that partition's contents. -/
def fatInit (s : Sys) (dev : BlockDevice) (part : Nat) : Bool × Sys :=
  match dev.parts[part]? with
  | some t => (true, { s with inited := true, root := t })
  | none => (false, { s with inited := false })

/-- Source `FatVolume::chdir()` (FatVolume.h 66-69): close `m_vwd`, then reopen it
at the volume's root. -/
def volChdir (s : Sys) : Bool × Sys :=
  let wd1 := hClose s.vwd
  let r := openRoot s wd1
  (r.1, { s with vwd := r.2 })

/-- Source `FatVolume::begin(dev, setCwv, part)` (FatVolume.h 47-58): init the
partition, then `chdir()`, then claim `m_cwv` when `setCwv` is set or the
register is unset. -/
def volBegin (s : Sys) (dev : BlockDevice) (setCwv : Bool) (part : Nat) : Bool × Sys :=
  let r1 := fatInit s dev part
  if !r1.1 then (false, r1.2)
  else
    let r2 := volChdir r1.2
    if !r2.1 then (false, r2.2)
    else
      (true, if setCwv || r2.2.cwv.isNone then { r2.2 with cwv := some r2.2.selfId }
             else r2.2)

/-- Source `FatVolume::chvol()` (FatVolume.h 60): unconditionally claim `m_cwv`. -/
def volChvol (s : Sys) : Sys := { s with cwv := some s.selfId }

/-- Source `FatVolume::exists(path)` (FatVolume.h 85-88): `FatFile tmp; return
tmp.open(this, path, O_RDONLY);`.  The last component of the result is the
temporary's state at return — scope exit runs its destructor, modelled from
the spec as releasing (closing) the handle. -/
def volExists (s : Sys) (p : List String) : Bool × Sys × Handle :=
  let r := fatOpenVol s p false
  (r.1, s, hClose r.2)

/-- Source `FatVolume::relExists(relative_path)` (FatVolume.h 275-278): `FatFile
tmp; return tmp.open(vwd(), relative_path, O_RDONLY);`; the temporary is
closed at scope exit (modelled from the spec). -/
def volRelExists (s : Sys) (p : List String) : Bool × Sys × Handle :=
  let r := fatOpen s.root s.vwd p false
  (r.1, { s with vwd := r.2.1 }, hClose r.2.2)

/-- Source `FatVolume::mkdir(path, pFlag)` (FatVolume.h 137-140): `FatFile sub;
return sub.mkdir(vwd(), path, pFlag);`; the temporary is closed at scope
exit (modelled from the spec). -/
def volMkdir (s : Sys) (p : List String) (pFlag : Bool) : Bool × Sys × Handle :=
  let r := fatMkdir s.root s.vwd p pFlag
  (r.1, { s with root := r.2.1 }, hClose r.2.2)

/-- Source `FatVolume::open(path, oflag)` (FatVolume.h 148-152): `File32 tmpFile;
tmpFile.open(this, path, oflag); return tmpFile;` — the open result bool is
ignored and the handle value is returned to the caller by copy. -/
def volOpen (s : Sys) (p : List String) (write : Bool) : Handle × Sys :=
  let r := fatOpenVol s p write
  (r.2, s)

/-- Source `FatVolume::remove(path)` (FatVolume.h 160-163): `FatFile tmp; return
tmp.open(this, path, O_WRONLY) && tmp.remove();`; short-circuit, temporary
closed at scope exit (modelled from the spec). -/
def volRemove (s : Sys) (p : List String) : Bool × Sys × Handle :=
  let r := fatOpenVol s p true
  if r.1 then
    let r2 := fatRemove s.root r.2
    (r2.1, { s with root := r2.2.1 }, hClose r2.2.2)
  else (false, s, hClose r.2)

/-- Source `FatVolume::rename(oldPath, newPath)` (FatVolume.h 179-182): `FatFile
file; return file.open(vwd(), oldPath, O_RDONLY) && file.rename(vwd(),
newPath);`; both steps resolve from `vwd()`. -/
def volRename (s : Sys) (oldP newP : List String) : Bool × Sys × Handle :=
  let r := fatOpen s.root s.vwd oldP false
  if r.1 then
    let r2 := fatRename s.root r.2.2 r.2.1 newP
    (r2.1, { s with root := r2.2.1, vwd := r.2.1 }, hClose r2.2.2)
  else (false, { s with vwd := r.2.1 }, hClose r.2.2)

/-- Source `FatVolume::rmdir(path)` (FatVolume.h 192-195): `FatFile sub; return
sub.open(this, path, O_RDONLY) && sub.rmdir();`. -/
def volRmdir (s : Sys) (p : List String) : Bool × Sys × Handle :=
  let r := fatOpenVol s p false
  if r.1 then
    let r2 := fatRmdirPrim s.root r.2
    (r2.1, { s with root := r2.2.1 }, hClose r2.2.2)
  else (false, s, hClose r.2)

/-- Source `FatVolume::truncate(path, length)` (FatVolume.h 205-208): `FatFile file;
return file.open(this, path, O_WRONLY) && file.truncate(length);`. -/
def volTruncate (s : Sys) (p : List String) (len : Nat) : Bool × Sys × Handle :=
  let r := fatOpenVol s p true
  if r.1 then
    let r2 := fatTruncate s.root r.2 len
    (r2.1, { s with root := r2.2.1 }, hClose r2.2.2)
  else (false, s, hClose r.2)

/-- Source `FatVolume::vwdRewind()` (FatVolume.h 211): `m_vwd.seekSet(0)`. -/
def vwdRewind (s : Sys) : Sys :=
  { s with vwd := (fatSeekSet s.root s.vwd 0).2 }

/-- Source `FatVolume::vwdCurPosition()` (FatVolume.h 214): `m_vwd.curPosition()`. -/
def vwdCurPosition (s : Sys) : Nat := s.vwd.pos

/-- Source `FatVolume::vwdSeekSet(pos)` (FatVolume.h 222): `m_vwd.seekSet(pos)`. -/
def vwdSeekSet (s : Sys) (pos : Nat) : Bool × Sys :=
  let r := fatSeekSet s.root s.vwd pos
  (r.1, { s with vwd := r.2 })

/-- Source `FatVolume::vwdOpenNext(oflag)` (FatVolume.h 231-235): `File32 tmpFile;
tmpFile.openNext(vwd(), oflag); return tmpFile;` — the bool is ignored and
the handle is returned by copy; no-more-entries shows as an invalid handle. -/
def vwdOpenNext (s : Sys) : Handle × Sys :=
  let r := fatOpenNext s.root s.vwd
  (r.2.2, { s with vwd := r.2.1 })

/-- Source `FatVolume::vwdRmdir()` (FatVolume.h 246-248): `return m_vwd.rmdir() &&
chdir();` — C++ `&&` short-circuits, so `chdir()` runs only when the
`rmdir` succeeded. -/
def vwdRmdir (s : Sys) : Bool × Sys :=
  let r := fatRmdirPrim s.root s.vwd
  let s1 : Sys := { s with root := r.2.1, vwd := r.2.2 }
  if r.1 then volChdir s1 else (false, s1)

/-- Source `FatVolume::vwdRmRfStar()` (FatVolume.h 264-266): `return
m_vwd.rmRfStar() && chdir();` — same short-circuit shape. -/
def vwdRmRfStar (s : Sys) : Bool × Sys :=
  let r := fatRmRfStar s.root s.vwd
  let s1 : Sys := { s with root := r.2.1, vwd := r.2.2 }
  if r.1 then volChdir s1 else (false, s1)

/-- Source `FatVolume::isDir(relative_path)` (FatVolume.h 305-315): open from
`vwd()`, test `dir.isDir()`, close on the open-success branch; the
temporary is also closed at scope exit (modelled from the spec). -/
def volIsDir (s : Sys) (p : List String) : Bool × Sys × Handle :=
  let r := fatOpen s.root s.vwd p false
  if r.1 then
    (hIsDir s.root r.2.2, { s with vwd := r.2.1 }, hClose r.2.2)
  else (false, { s with vwd := r.2.1 }, hClose r.2.2)

/-- Source `FatVolume::isFile(relative_path)` (FatVolume.h 318-328): open from
`vwd()`, test `file.isFile()`, close on the open-success branch; the
temporary is also closed at scope exit (modelled from the spec). -/
def volIsFile (s : Sys) (p : List String) : Bool × Sys × Handle :=
  let r := fatOpen s.root s.vwd p false
  if r.1 then
    (hIsFile s.root r.2.2, { s with vwd := r.2.1 }, hClose r.2.2)
  else (false, { s with vwd := r.2.1 }, hClose r.2.2)

/-- The state after the delete step of `vwdRmdir`, before any root reset. -/
def rmdirMid (s : Sys) : Sys :=
  { s with root := (fatRmdirPrim s.root s.vwd).2.1, vwd := (fatRmdirPrim s.root s.vwd).2.2 }

/-- The state after the delete step of `vwdRmRfStar`, before any root reset. -/
def rmRfMid (s : Sys) : Sys :=
  { s with root := (fatRmRfStar s.root s.vwd).2.1, vwd := (fatRmRfStar s.root s.vwd).2.2 }

/-- Follows the spec's words for `removeWorkingDirectory`: the root-reset
step is attempted regardless of the delete step's outcome and the result is
the conjunction of both outcomes. -/
def vwdRmdirAlwaysReset (s : Sys) : Bool × Sys :=
  let r := fatRmdirPrim s.root s.vwd
  let r2 := volChdir { s with root := r.2.1, vwd := r.2.2 }
  (r.1 && r2.1, r2.2)

/-- Follows the spec's words for `recursiveDeleteWorkingDirectory`: root
reset attempted unconditionally, outcomes conjoined. -/
def vwdRmRfStarAlwaysReset (s : Sys) : Bool × Sys :=
  let r := fatRmRfStar s.root s.vwd
  let r2 := volChdir { s with root := r.2.1, vwd := r.2.2 }
  (r.1 && r2.1, r2.2)

/-- A handle standing for the volume itself as a resolution base: bound to
the root, usable only when the partition is initialised. -/
def volRootHandle (s : Sys) : Handle :=
  { isOpen := s.inited, hpath := [], pos := 0 }

/-- Follows the spec's words for `mkdir`: the path is resolved starting at
the Volume itself (conceptually its root), not at the cursor. -/
def mkdirRootSpec (s : Sys) (p : List String) (pFlag : Bool) : Bool × Sys × Handle :=
  let r := fatMkdir s.root (volRootHandle s) p pFlag
  (r.1, { s with root := r.2.1 }, hClose r.2.2)

/-- Follows the spec's words for `rename`: both paths resolved starting at
the Volume itself (conceptually its root). -/
def renameRootSpec (s : Sys) (oldP newP : List String) : Bool × Sys × Handle :=
  let r := fatOpen s.root (volRootHandle s) oldP false
  if r.1 then
    let r2 := fatRename s.root r.2.2 r.2.1 newP
    (r2.1, { s with root := r2.2.1 }, hClose r2.2.2)
  else (false, s, hClose r.2.2)

/-- The amended reading of the claim for `mkdir`: the path is resolved
starting at the Working-Directory Cursor. -/
def mkdirWdSpec (s : Sys) (p : List String) (pFlag : Bool) : Bool × Sys × Handle :=
  let r := fatMkdir s.root s.vwd p pFlag
  (r.1, { s with root := r.2.1 }, hClose r.2.2)

/-- The amended reading of the claim for `rename`: both paths are resolved
starting at the Working-Directory Cursor. -/
def renameWdSpec (s : Sys) (oldP newP : List String) : Bool × Sys × Handle :=
  let r := fatOpen s.root s.vwd oldP false
  if r.1 then
    let r2 := fatRename s.root r.2.2 r.2.1 newP
    (r2.1, { s with root := r2.2.1, vwd := r.2.1 }, hClose r2.2.2)
  else (false, { s with vwd := r.2.1 }, hClose r.2.2)

/-- The volume state after `n` uninterrupted `vwdOpenNext` calls. -/
def enumState (s : Sys) : Nat → Sys
  | 0 => s
  | n + 1 => (vwdOpenNext (enumState s n)).2

/-- A sample mounted state: root holds directory `a` (containing file `x`),
the working directory is `a`, the register is unset. -/
def sampleSys : Sys :=
  { selfId := 7
    inited := true
    root := Node.dir [("a", Node.dir [("x", Node.file 3)])]
    vwd := { isOpen := true, hpath := ["a"], pos := 0 }
    cwv := none }

/-- A sample mounted state whose working directory is the root, holding two
entries for enumeration. -/
def sampleRootSys : Sys :=
  { selfId := 2
    inited := true
    root := Node.dir [("a", Node.dir [("x", Node.file 3)]), ("b", Node.file 5)]
    vwd := { isOpen := true, hpath := [], pos := 0 }
    cwv := some 2 }

/-- Claim C1, counterexample: with the working directory at the non-empty
directory `a`, the delete step of `vwdRmdir` fails, and although a root
reset would succeed on that state, the cursor is left pointing at `a` — the
root-reset step was not attempted, so the composite does not match the
claimed always-reset behaviour. -/
theorem c1_counterexample :
    (vwdRmdir sampleSys).2.vwd ≠ (vwdRmdirAlwaysReset sampleSys).2.vwd ∧
    (vwdRmdir sampleSys).2.vwd.hpath = ["a"] ∧
    (vwdRmdir sampleSys).2.vwd.isOpen = true ∧
    (volChdir (rmdirMid sampleSys)).1 = true := by
  refine ⟨by decide, by decide, by decide, by decide⟩

/-- Claim C1 as amended: in `vwdRmdir` and `vwdRmRfStar` the root-reset step
runs only when the delete step succeeds (C++ `&&` short-circuits); the
returned boolean is still the conjunction of the delete outcome and the
outcome the reset has (or would have) on the post-delete state — in
particular a successful delete followed by a failed reset reports failure —
and when the delete fails the state is exactly the post-delete state, with
no reset applied. -/
theorem c1_amended (s : Sys) :
    (vwdRmdir s).1 = ((fatRmdirPrim s.root s.vwd).1 && (volChdir (rmdirMid s)).1) ∧
    (vwdRmdir s).2 =
      (if (fatRmdirPrim s.root s.vwd).1 then (volChdir (rmdirMid s)).2 else rmdirMid s) ∧
    (vwdRmRfStar s).1 = ((fatRmRfStar s.root s.vwd).1 && (volChdir (rmRfMid s)).1) ∧
    (vwdRmRfStar s).2 =
      (if (fatRmRfStar s.root s.vwd).1 then (volChdir (rmRfMid s)).2 else rmRfMid s) := by
  refine ⟨?_, ?_, ?_, ?_⟩
  · cases hb : (fatRmdirPrim s.root s.vwd).1 <;> simp [vwdRmdir, rmdirMid, hb]
  · cases hb : (fatRmdirPrim s.root s.vwd).1 <;> simp [vwdRmdir, rmdirMid, hb]
  · cases hb : (fatRmRfStar s.root s.vwd).1 <;> simp [vwdRmRfStar, rmRfMid, hb]
  · cases hb : (fatRmRfStar s.root s.vwd).1 <;> simp [vwdRmRfStar, rmRfMid, hb]

/-- Claim C2, counterexample: with the working directory at `a`,
`mkdir("c", false)` creates `a/c` (not `/c` as root-relative resolution
would), and `rename("x", "y")` succeeds by finding `x` inside `a` while
root-relative resolution of `x` fails. -/
theorem c2_counterexample :
    (lookup (volMkdir sampleSys ["c"] false).2.1.root ["a", "c"]).isSome = true ∧
    (lookup (mkdirRootSpec sampleSys ["c"] false).2.1.root ["a", "c"]).isSome = false ∧
    (lookup (mkdirRootSpec sampleSys ["c"] false).2.1.root ["c"]).isSome = true ∧
    (volRename sampleSys ["x"] ["y"]).1 = true ∧
    (renameRootSpec sampleSys ["x"] ["y"]).1 = false := by
  refine ⟨by decide, by decide, by decide, by decide, by decide⟩

/-- Claim C2 as amended: `mkdir(path, pFlag)` and `rename(oldPath, newPath)`
resolve their path arguments starting at the Working-Directory Cursor
(`vwd()`), not at the volume's root. -/
theorem c2_amended (s : Sys) (p oldP newP : List String) (pFlag : Bool) :
    volMkdir s p pFlag = mkdirWdSpec s p pFlag ∧
    volRename s oldP newP = renameWdSpec s oldP newP :=
  ⟨rfl, rfl⟩

/-- Claim C3: `begin(dev, setCwv, part)` returns true iff partition init and
the root-open into the cursor (`chdir`) both succeed; on success the volume
claims the register iff `setCwv` is set or the register was unset, and on
failure the register is unchanged. -/
theorem c3_begin (s : Sys) (dev : BlockDevice) (setCwv : Bool) (part : Nat) :
    (volBegin s dev setCwv part).1
      = ((fatInit s dev part).1 && (volChdir (fatInit s dev part).2).1) ∧
    (volBegin s dev setCwv part).2.cwv
      = (if (volBegin s dev setCwv part).1
         then (if setCwv || s.cwv.isNone then some s.selfId else s.cwv)
         else s.cwv) := by
  cases hg : dev.parts[part]? with
  | none => simp [volBegin, fatInit, hg, volChdir, openRoot]
  | some t =>
      by_cases hc : (setCwv || s.cwv.isNone) = true <;>
        simp [volBegin, fatInit, hg, volChdir, openRoot, hc]

/-- Helper: value of `volExists` in terms of path resolution. -/
theorem volExists_val (s : Sys) (p : List String) :
    (volExists s p).1 = (s.inited && (resolveFrom s.root [] p).isSome) := by
  cases hi : s.inited with
  | false => simp [volExists, fatOpenVol, hi]
  | true =>
      simp only [volExists, fatOpenVol, fatOpen, hi, if_true]
      cases hr : s.root with
      | file sz => simp [lookup, resolveFrom, hr]
      | dir es =>
          simp only [lookup, resolveFrom]
          cases hl : lookup (Node.dir es) p <;> simp [hl]

/-- Helper: value of `volRelExists` in terms of path resolution. -/
theorem volRelExists_val (s : Sys) (p : List String) :
    (volRelExists s p).1
      = (s.vwd.isOpen && (resolveFrom s.root s.vwd.hpath p).isSome) := by
  cases ho : s.vwd.isOpen with
  | false => simp [volRelExists, fatOpen, ho]
  | true =>
      simp only [volRelExists, fatOpen, ho, if_true]
      cases hb : lookup s.root s.vwd.hpath with
      | none => simp [resolveFrom, hb]
      | some m =>
          cases m with
          | file sz => simp [resolveFrom, hb]
          | dir es =>
              simp only [resolveFrom, hb]
              cases hl : lookup (Node.dir es) p <;> simp [hl]

/-- Claim C4: `exists(p)` is true iff a handle opens at `p` resolved
root-relative (partition initialised and the path resolves from the root),
and `relExists(p)` is true iff a handle opens at `p` resolved from the
Working-Directory Cursor; both are plain booleans, surfacing open failure
as `false`. -/
theorem c4_exists_relExists (s : Sys) (p : List String) :
    (volExists s p).1 = (s.inited && (resolveFrom s.root [] p).isSome) ∧
    (volRelExists s p).1
      = (s.vwd.isOpen && (resolveFrom s.root s.vwd.hpath p).isSome) :=
  ⟨volExists_val s p, volRelExists_val s p⟩

/-- Claim C5: every path operation that creates a short-lived handle
(`exists`, `relExists`, `remove`, `rmdir`, `truncate`, `isDir`, `isFile`)
has that temporary closed at return on every exit path, success and failure
alike. -/
theorem c5_handles_closed (s : Sys) (p : List String) (len : Nat) :
    (volExists s p).2.2.isOpen = false ∧
    (volRelExists s p).2.2.isOpen = false ∧
    (volRemove s p).2.2.isOpen = false ∧
    (volRmdir s p).2.2.isOpen = false ∧
    (volTruncate s p len).2.2.isOpen = false ∧
    (volIsDir s p).2.2.isOpen = false ∧
    (volIsFile s p).2.2.isOpen = false := by
  refine ⟨rfl, rfl, ?_, ?_, ?_, ?_, ?_⟩ <;>
    simp only [volRemove, volRmdir, volTruncate, volIsDir, volIsFile] <;>
    split <;> simp [hClose]

/-- Claim C7: `chdir()` returns true iff reopening the root succeeds (the
partition is initialised); on success the cursor is the open root handle, on
failure it is left closed; and the initial close is idempotent — running
`chdir` on a state whose cursor was already closed gives the same outcome. -/
theorem c7_chdir (s : Sys) :
    (volChdir s).1 = s.inited ∧
    (volChdir s).2.vwd
      = (if s.inited then { isOpen := true, hpath := [], pos := 0 } else hClose s.vwd) ∧
    (volChdir s).2.vwd.isOpen = s.inited ∧
    volChdir { s with vwd := hClose s.vwd } = volChdir s := by
  cases hi : s.inited <;> simp [volChdir, openRoot, hClose, hi]

/-- Helper: resolving a concatenated path resolves the first part, then the
second from there. -/
theorem lookup_append (b : List String) (root : Node) (p : List String) :
    lookup root (b ++ p)
      = (match lookup root b with
         | some m => lookup m p
         | none => none) := by
  induction b generalizing root with
  | nil => simp [lookup]
  | cons c cs ih =>
      cases root with
      | file sz => simp [lookup]
      | dir es =>
          simp only [List.cons_append, lookup]
          cases hf : findIn es c with
          | none => simp
          | some n => simp [ih n]

/-- Claim C6: `isDir(p)` is true iff the open from the cursor succeeds and
the resolved entry is a directory; `isFile(p)` likewise for a regular file;
and in both operations the temporary handle is closed at return. -/
theorem c6_isDir_isFile (s : Sys) (p : List String) :
    (volIsDir s p).1
      = (s.vwd.isOpen
         && (match resolveFrom s.root s.vwd.hpath p with
             | some (Node.dir _) => true
             | _ => false)) ∧
    (volIsFile s p).1
      = (s.vwd.isOpen
         && (match resolveFrom s.root s.vwd.hpath p with
             | some (Node.file _) => true
             | _ => false)) ∧
    (volIsDir s p).2.2.isOpen = false ∧
    (volIsFile s p).2.2.isOpen = false := by
  cases ho : s.vwd.isOpen with
  | false => simp [volIsDir, volIsFile, fatOpen, ho, hClose]
  | true =>
      simp only [volIsDir, volIsFile, fatOpen, ho, if_true]
      cases hb : lookup s.root s.vwd.hpath with
      | none => simp [resolveFrom, hb, hClose]
      | some m =>
          cases m with
          | file sz => simp [resolveFrom, hb, hClose]
          | dir es =>
              cases hl : lookup (Node.dir es) p with
              | none => simp [resolveFrom, hb, hl, hClose]
              | some n =>
                  have happ : lookup s.root (s.vwd.hpath ++ p) = some n := by
                    rw [lookup_append, hb]
                    exact hl
                  simp [resolveFrom, hb, hl, hClose, hIsDir, hIsFile, happ]

/-- Claim C8: immediately after a successful reset to root (`chdir()` on an
initialised volume), working-directory-relative and root-relative existence
checks agree on every path. -/
theorem c8_reset_then_rel (s : Sys) (p : List String) (h : s.inited = true) :
    (volRelExists (volChdir s).2 p).1 = (volExists (volChdir s).2 p).1 := by
  rw [volRelExists_val, volExists_val]
  simp [volChdir, openRoot, h]

/-- Claim C8 witness: the hypothesis holds and the conclusion follows at a
concrete mounted state and path. -/
theorem c8_witness :
    sampleSys.inited = true ∧
    (volRelExists (volChdir sampleSys).2 ["a"]).1
      = (volExists (volChdir sampleSys).2 ["a"]).1 :=
  ⟨rfl, c8_reset_then_rel sampleSys ["a"] rfl⟩

/-- Helper: an uninterrupted enumeration that started rewound advances only
the cursor position, one entry per `vwdOpenNext`, as long as entries
remain. -/
theorem enumState_fields (s : Sys) (es : List (String × Node))
    (ho : s.vwd.isOpen = true)
    (hes : lookup s.root s.vwd.hpath = some (Node.dir es))
    (h0 : s.vwd.pos = 0) :
    ∀ N, N ≤ es.length →
      (enumState s N).root = s.root ∧ (enumState s N).vwd.isOpen = true ∧
      (enumState s N).vwd.hpath = s.vwd.hpath ∧ (enumState s N).vwd.pos = N := by
  intro N
  induction N with
  | zero => exact fun _ => ⟨rfl, ho, rfl, h0⟩
  | succ n ih =>
      intro hle
      obtain ⟨hr, hoo, hp, hpos⟩ := ih (Nat.le_of_succ_le hle)
      have hlt : n < es.length := Nat.lt_of_succ_le hle
      have hget : es[n]? = some es[n] := List.getElem?_eq_getElem hlt
      simp [enumState, vwdOpenNext, fatOpenNext, hoo, hes, hpos, hget, hr, hp]

/-- Claim C9: capturing `vwdCurPosition()` after `N` `vwdOpenNext` calls on
a rewound cursor, then later (from any state with the same tree and the same
open working directory) restoring it with `vwdSeekSet` and calling
`vwdOpenNext` once, succeeds and yields the same (N+1)-th entry handle that
the uninterrupted enumeration yields. -/
theorem c9_capture_seek_openNext (s t : Sys) (es : List (String × Node)) (N : Nat)
    (hso : s.vwd.isOpen = true)
    (hs0 : s.vwd.pos = 0)
    (hes : lookup s.root s.vwd.hpath = some (Node.dir es))
    (hN : N < es.length)
    (htr : t.root = s.root)
    (hto : t.vwd.isOpen = true)
    (htp : t.vwd.hpath = s.vwd.hpath) :
    (vwdSeekSet t (vwdCurPosition (enumState s N))).1 = true ∧
    (vwdOpenNext (vwdSeekSet t (vwdCurPosition (enumState s N))).2).1
      = (vwdOpenNext (enumState s N)).1 := by
  obtain ⟨hr, hoo, hp, hpos⟩ :=
    enumState_fields s es hso hes hs0 N (Nat.le_of_lt hN)
  have hcap : vwdCurPosition (enumState s N) = N := hpos
  have hget : es[N]? = some es[N] := List.getElem?_eq_getElem hN
  have htlk : lookup t.root t.vwd.hpath = some (Node.dir es) := by
    rw [htr, htp]; exact hes
  have hslk : lookup (enumState s N).root s.vwd.hpath
      = some (Node.dir es) := by rw [hr]; exact hes
  have h1 : vwdSeekSet t N
      = (true, { t with vwd := ⟨true, t.vwd.hpath, N⟩ }) := by
    simp [vwdSeekSet, fatSeekSet, hto, htlk, Nat.le_of_lt hN]
  have h2 : (vwdOpenNext (vwdSeekSet t N).2).1
      = ⟨true, t.vwd.hpath ++ [es[N].1], 0⟩ := by
    rw [h1]
    simp [vwdOpenNext, fatOpenNext, htlk, hget]
  have h3 : (vwdOpenNext (enumState s N)).1
      = ⟨true, s.vwd.hpath ++ [es[N].1], 0⟩ := by
    simp [vwdOpenNext, fatOpenNext, hoo, hslk, hpos, hget, hp]
  rw [hcap]
  refine ⟨by rw [h1], ?_⟩
  rw [h2, h3, htp]

/-- A state sharing `sampleRootSys`'s tree and working directory, but with a
different cursor position and register, standing for "later" in the claim. -/
def laterSys : Sys :=
  { selfId := 9
    inited := true
    root := Node.dir [("a", Node.dir [("x", Node.file 3)]), ("b", Node.file 5)]
    vwd := { isOpen := true, hpath := [], pos := 2 }
    cwv := none }

/-- Claim C9 witness: the hypotheses hold and the conclusion follows at a
concrete two-entry directory with `N = 1`. -/
theorem c9_witness :
    sampleRootSys.vwd.isOpen = true ∧ sampleRootSys.vwd.pos = 0 ∧
    lookup sampleRootSys.root sampleRootSys.vwd.hpath
      = some (Node.dir [("a", Node.dir [("x", Node.file 3)]), ("b", Node.file 5)]) ∧
    1 < [("a", Node.dir [("x", Node.file 3)]), ("b", Node.file 5)].length ∧
    laterSys.root = sampleRootSys.root ∧ laterSys.vwd.isOpen = true ∧
    laterSys.vwd.hpath = sampleRootSys.vwd.hpath ∧
    ((vwdSeekSet laterSys (vwdCurPosition (enumState sampleRootSys 1))).1 = true ∧
     (vwdOpenNext (vwdSeekSet laterSys (vwdCurPosition (enumState sampleRootSys 1))).2).1
       = (vwdOpenNext (enumState sampleRootSys 1)).1) :=
  ⟨rfl, rfl, rfl, by decide, rfl, rfl, rfl,
   c9_capture_seek_openNext sampleRootSys laterSys
     [("a", Node.dir [("x", Node.file 3)]), ("b", Node.file 5)] 1
     rfl rfl rfl (by decide) rfl rfl rfl⟩

/-- Helper: opening from a base directory handle can change only the base's
enumeration position, never its open flag or the directory it is bound to. -/
theorem fatOpen_base (root : Node) (base : Handle) (p : List String) (w : Bool) :
    (fatOpen root base p w).2.1.isOpen = base.isOpen ∧
    (fatOpen root base p w).2.1.hpath = base.hpath := by
  cases ho : base.isOpen with
  | false => simp [fatOpen, ho]
  | true =>
      simp only [fatOpen, ho, if_true]
      cases hb : lookup root base.hpath with
      | none => simp [ho]
      | some m =>
          cases m with
          | file sz => simp [ho]
          | dir es =>
              cases p with
              | nil =>
                  simp only [lookup]
                  split <;> simp [ho]
              | cons c cs =>
                  cases hl : lookup (Node.dir es) (c :: cs) with
                  | none => simp [hl, ho]
                  | some n =>
                      simp only [hl]
                      split <;> simp [ho]

/-- Claim C10: the read-only queries `exists`, `relExists`, `isDir`,
`isFile` and `open` never modify the Current-Working-Volume Register, never
modify the tree, and leave the Working-Directory Cursor open on the same
directory (at most its enumeration position changes); `exists` and `open`,
being root-relative, leave the whole state untouched. -/
theorem c10_frame (s : Sys) (p : List String) (w : Bool) :
    (volExists s p).2.1 = s ∧
    (volOpen s p w).2 = s ∧
    ((volRelExists s p).2.1.cwv = s.cwv ∧ (volRelExists s p).2.1.root = s.root ∧
      (volRelExists s p).2.1.vwd.isOpen = s.vwd.isOpen ∧
      (volRelExists s p).2.1.vwd.hpath = s.vwd.hpath) ∧
    ((volIsDir s p).2.1.cwv = s.cwv ∧ (volIsDir s p).2.1.root = s.root ∧
      (volIsDir s p).2.1.vwd.isOpen = s.vwd.isOpen ∧
      (volIsDir s p).2.1.vwd.hpath = s.vwd.hpath) ∧
    ((volIsFile s p).2.1.cwv = s.cwv ∧ (volIsFile s p).2.1.root = s.root ∧
      (volIsFile s p).2.1.vwd.isOpen = s.vwd.isOpen ∧
      (volIsFile s p).2.1.vwd.hpath = s.vwd.hpath) := by
  have hb := fatOpen_base s.root s.vwd p false
  refine ⟨rfl, rfl, ?_, ?_, ?_⟩ <;>
    simp only [volRelExists, volIsDir, volIsFile] <;>
    (try split) <;> simp [hb.1, hb.2]
